import Mathlib

/-!
Verification of the contract/big-map query client (`rpc/contracts.go`) of
the tzgo repository, against its natural-language specification.

The file shallowly embeds the Go source: each Go method becomes a Lean
function over an explicit transport collaborator.  Collaborator types that
live elsewhere in the repository (the `Client.Get` transport, the
`micheline` and `tezos` packages, Go's `encoding/json` behaviour for the
struct targets used here) are modelled from the specification's collaborator
contract and carry doc comments saying so.  Machine integers are `Int` with
explicit two's-complement bounds where the code depends on them.
-/

namespace TzgoContracts

/-- A JSON value, the parsed response body handed over by the transport.
Numbers are kept as `Int` since no fractional JSON number occurs in this
API surface. -/
inductive Json where
  | null : Json
  | bool (b : Bool) : Json
  | num (n : Int) : Json
  | str (s : String) : Json
  | arr (elems : List Json) : Json
  | obj (fields : List (String × Json)) : Json
  deriving Repr

/-- Error taxonomy of the client: transport-level failures (network error,
non-2xx status, malformed JSON), JSON decode failures, and the two
`strconv.ParseInt` failure kinds (`ErrSyntax`, `ErrRange`). -/
inductive Err where
  | transport (msg : String) : Err
  | decode (msg : String) : Err
  | errSyn : Err
  | errRange : Err
  deriving Repr, BEq, DecidableEq

/-- Modelled from the spec: the caller-supplied cancellable context.  Only
the fact relevant to this surface is kept: whether it has been cancelled
before response completion. -/
structure Ctx where
  cancelled : Bool
  deriving Repr, DecidableEq

/-- Modelled from the spec: `tezos.Address`, "an opaque, validated chain
account/contract identifier, rendered to its canonical string form for URL
construction". -/
structure Address where
  render : String
  deriving Repr, DecidableEq

/-- Modelled from the spec: `tezos.ExprHash`, "a content hash identifying a
big-map key's script-expression encoding", rendered to a string for URL
construction. -/
structure ExprHash where
  render : String
  deriving Repr, DecidableEq

/-- Modelled from the spec: `rpc.BlockID`, "a reference to a block — either
the symbolic tag `head` or a concrete height/level (integer) or hash". -/
inductive BlockID where
  | head : BlockID
  | level (h : Int) : BlockID
  | hash (s : String) : BlockID
  deriving Repr, DecidableEq

/-- Modelled from the spec: rendering a block reference into its URL
segment — the literal `head`, the decimal height, or the hash string. -/
def BlockID.render : BlockID → String
  | .head => "head"
  | .level h => toString h
  | .hash s => s

/-- `rpc.BlockLevel`: wraps an integer height into the block-reference
form. -/
def BlockLevel (height : Int) : BlockID := BlockID.level height

/-- `rpc.Head`: the symbolic head block reference. -/
def Head : BlockID := BlockID.head

/-- Modelled from the spec: `micheline.Prim`, "a generic typed-tree value
… this client treats it as an opaque decode target", together with the
sentinel "invalid" value that decoding never produces. -/
inductive Prim where
  | invalid : Prim
  | valid (tree : Json) : Prim
  deriving Repr

/-- `micheline.InvalidPrim`: the sentinel invalid Prim value. -/
def InvalidPrim : Prim := Prim.invalid

/-- Modelled from the spec: `micheline.Script`, "a container for a
contract's code and storage-type definitions", an opaque decode target. -/
structure Script where
  body : Json
  deriving Repr

/-- `micheline.NewScript`: a fresh empty script decode target. -/
def NewScript : Script := ⟨Json.null⟩

/-- Modelled from the spec: the transport collaborator,
`Get(ctx, relativePath, out) -> error` — "performs an HTTP GET against a
configured base endpoint, treats non-success status as an error, and
decodes the JSON response body into `out`".  The fetch half (request plus
body parse) is a function of the forwarded context and the relative path;
the typed decode half is the per-target decoder applied by `get` below. -/
structure Client where
  fetch : Ctx → String → Except Err Json

/-- The typed `Get`: fetch the body at `path` with the forwarded context,
then decode it into the target. -/
def Client.get (c : Client) (ctx : Ctx) (path : String)
    (dec : Json → Except Err α) : Except Err α :=
  match c.fetch ctx path with
  | .error e => .error e
  | .ok j => dec j

/-! ## `strconv.ParseInt(s, 10, 64)` -/

/-- Sign handling of `strconv.ParseInt`: an optional leading `+` or `-`. -/
def stripSign : List Char → Bool × List Char
  | '+' :: rest => (false, rest)
  | '-' :: rest => (true, rest)
  | cs => (false, cs)

/-- Base-10 digit accumulation: `none` when a non-digit occurs (and on the
empty digit list the caller rejects separately). -/
def parseDigitsAux : List Char → Nat → Option Nat
  | [], acc => some acc
  | c :: cs, acc =>
      if c.isDigit then parseDigitsAux cs (acc * 10 + (c.toNat - 48)) else none

/-- The character-level body of `strconv.ParseInt(s, 10, 64)`. -/
def parseInt64Chars (cs : List Char) : Int × Option Err :=
  let neg := (stripSign cs).1
  let ds := (stripSign cs).2
  if ds.isEmpty then (0, some Err.errSyn)
  else
    match parseDigitsAux ds 0 with
    | none => (0, some Err.errSyn)
    | some n =>
      let v : Int := if neg then -(n : Int) else (n : Int)
      if v < -(2 ^ 63) then (-(2 ^ 63), some Err.errRange)
      else if (2 ^ 63 - 1 : Int) < v then (2 ^ 63 - 1, some Err.errRange)
      else (v, none)

/-- `strconv.ParseInt(s, 10, 64)`: parses an optionally-signed base-10
integer.  A syntactically invalid string (empty, bare sign, or any
non-digit) yields `(0, ErrSyntax)`; a syntactically valid value outside
the signed 64-bit range yields the clamped boundary value together with
`ErrRange`; otherwise the value with no error. -/
def parseInt64 (s : String) : Int × Option Err :=
  parseInt64Chars s.toList

/-! ## Typed decoders (the `out` targets of `Get`) -/

/-- Modelled from the spec: decoding a JSON value into a `tezos.Address`
(the element decode used by the contract list): the body element must be a
JSON string holding the canonical address form. -/
def decodeAddress : Json → Except Err Address
  | .str s => .ok ⟨s⟩
  | _ => .error (Err.decode "address: not a string")

/-- Modelled from the spec: decoding a JSON value into a
`tezos.ExprHash`. -/
def decodeExprHash : Json → Except Err ExprHash
  | .str s => .ok ⟨s⟩
  | _ => .error (Err.decode "exprhash: not a string")

/-- Decode each element of a JSON array with `dec`; any element failure
fails the whole decode. -/
def decodeListWith (dec : Json → Except Err α) : List Json → Except Err (List α)
  | [] => .ok []
  | j :: js => do
      let a ← dec j
      let as ← decodeListWith dec js
      .ok (a :: as)

/-- Modelled from the spec: decoding the contract-list body — a JSON array
of canonical address strings. -/
def decodeContracts : Json → Except Err (List Address)
  | .arr elems => decodeListWith decodeAddress elems
  | _ => .error (Err.decode "contracts: not an array")

/-- Modelled from the spec: decoding the big-map key-list body — a JSON
array of expression-hash strings. -/
def decodeExprHashes : Json → Except Err (List ExprHash)
  | .arr elems => decodeListWith decodeExprHash elems
  | _ => .error (Err.decode "exprhashes: not an array")

/-- Modelled from the spec: decoding the balance body, "a JSON string
containing a base-10 integer" — the decode itself only requires a JSON
string; the integer parse is the caller's secondary step. -/
def decodeString : Json → Except Err String
  | .str s => .ok s
  | _ => .error (Err.decode "balance: not a string")

/-- Modelled from the spec: decoding a JSON value into a `micheline.Prim`
tree.  The tree is treated as opaque; a JSON `null` is not a valid
Micheline encoding and fails the decode, every other body decodes to the
(never-invalid) tree it contains. -/
def decodePrim : Json → Except Err Prim
  | .null => .error (Err.decode "prim: null body")
  | j => .ok (Prim.valid j)

/-- Modelled from the spec: decoding a JSON value into a
`micheline.Script` container (opaque to this client). -/
def decodeScript : Json → Except Err Script
  | .null => .error (Err.decode "script: null body")
  | j => .ok ⟨j⟩

/-- Look up a field in a decoded JSON object the way `encoding/json` does
for struct/map targets: the last occurrence of the name wins. -/
def lookupField (fields : List (String × Json)) (name : String) : Option Json :=
  match fields with
  | [] => none
  | (k, v) :: rest =>
      match lookupField rest name with
      | some w => some w
      | none => if k = name then some v else none

/-- Modelled from the spec: decoding the entrypoints mapping
(`name -> Prim`) from a JSON object. -/
def decodeEpMap : Json → Except Err (List (String × Prim))
  | .obj fields =>
      decodeListWith (fun j => decodePrim j) (fields.map Prod.snd) |>.map
        fun prims => (fields.map Prod.fst).zip prims
  | _ => .error (Err.decode "entrypoints: not an object")

/-- Modelled from the spec: decoding the entrypoints wrapper object "whose
single field holds the mapping".  A missing wrapper field leaves the
zero-value (empty) mapping, as `encoding/json` leaves absent struct fields
untouched. -/
def decodeEntrypointsWrapper : Json → Except Err (List (String × Prim))
  | .obj fields =>
      match lookupField fields "entrypoints" with
      | some v => decodeEpMap v
      | none => .ok []
  | _ => .error (Err.decode "entrypoints: not an object")

/-- `BigmapInfo`: `{ KeyType: Prim, ValueType: Prim, TotalBytes: integer
(decoded from a quoted-string numeric field) }`. -/
structure BigmapInfo where
  KeyType : Prim
  ValueType : Prim
  TotalBytes : Int
  deriving Repr

/-- Modelled from the spec: the zero value a fresh `BigmapInfo` decode
target holds before decoding (absent fields keep it). -/
def BigmapInfo.zero : BigmapInfo := ⟨Prim.valid Json.null, Prim.valid Json.null, 0⟩

/-- Modelled from the spec: decoding a `BigmapInfo` — `key_type` and
`value_type` are Prim trees and `total_bytes` is "a JSON string containing
a base-10 integer" (the `,string` convention: a native JSON number is
rejected, the quoted string is parsed base-10, and a parse failure fails
the decode).  Absent fields keep the zero value. -/
def decodeBigmapInfo : Json → Except Err BigmapInfo
  | .obj fields => do
      let kt ← match lookupField fields "key_type" with
        | some v => decodePrim v
        | none => .ok BigmapInfo.zero.KeyType
      let vt ← match lookupField fields "value_type" with
        | some v => decodePrim v
        | none => .ok BigmapInfo.zero.ValueType
      let tb ← match lookupField fields "total_bytes" with
        | some (.str s) =>
            match parseInt64 s with
            | (v, none) => Except.ok v
            | (_, some e) => Except.error e
        | some _ => .error (Err.decode "total_bytes: not a quoted string")
        | none => .ok 0
      .ok ⟨kt, vt, tb⟩
  | _ => .error (Err.decode "bigmap info: not an object")

/-! ## URL construction (the `fmt.Sprintf` calls of the source) -/

/-- `fmt.Sprintf("chains/main/blocks/%s/context/contracts", id)` -/
def contractsPath (id : BlockID) : String :=
  "chains/main/blocks/" ++ id.render ++ "/context/contracts"

/-- `fmt.Sprintf("chains/main/blocks/%s/context/contracts/%s/balance", id, addr)` -/
def contractBalancePath (id : BlockID) (addr : Address) : String :=
  "chains/main/blocks/" ++ id.render ++ "/context/contracts/" ++ addr.render ++ "/balance"

/-- `fmt.Sprintf("chains/main/blocks/head/context/contracts/%s/script", addr)` -/
def contractScriptPath (addr : Address) : String :=
  "chains/main/blocks/head/context/contracts/" ++ addr.render ++ "/script"

/-- `fmt.Sprintf("chains/main/blocks/%s/context/contracts/%s/storage", id, addr)` -/
def contractStoragePath (id : BlockID) (addr : Address) : String :=
  "chains/main/blocks/" ++ id.render ++ "/context/contracts/" ++ addr.render ++ "/storage"

/-- `fmt.Sprintf("chains/main/blocks/head/context/contracts/%s/entrypoints", addr)` -/
def contractEntrypointsPath (addr : Address) : String :=
  "chains/main/blocks/head/context/contracts/" ++ addr.render ++ "/entrypoints"

/-- `fmt.Sprintf("chains/main/blocks/%s/context/raw/json/big_maps/index/%d/contents", id, bigmap)` -/
def bigmapKeysPath (id : BlockID) (bigmap : Int) : String :=
  "chains/main/blocks/" ++ id.render ++ "/context/raw/json/big_maps/index/"
    ++ toString bigmap ++ "/contents"

/-- `fmt.Sprintf("chains/main/blocks/%s/context/raw/json/big_maps/index/%d/contents/%s", id, bigmap, hash)` -/
def bigmapValuePath (id : BlockID) (bigmap : Int) (hash : ExprHash) : String :=
  "chains/main/blocks/" ++ id.render ++ "/context/raw/json/big_maps/index/"
    ++ toString bigmap ++ "/contents/" ++ hash.render

/-- `fmt.Sprintf("chains/main/blocks/%s/context/raw/json/big_maps/index/%d", id, bigmap)` -/
def bigmapInfoPath (id : BlockID) (bigmap : Int) : String :=
  "chains/main/blocks/" ++ id.render ++ "/context/raw/json/big_maps/index/" ++ toString bigmap

/-! ## The operations

Each returns the Go `(value, error)` pair — `Option` standing for Go's
nil-able pointer/slice/map results — together with the list of requests
issued through the transport. -/

/-- `GetContracts`: list of all known contracts at the given block. -/
def GetContracts (c : Client) (ctx : Ctx) (id : BlockID) :
    (Option (List Address) × Option Err) × List String :=
  (match c.get ctx (contractsPath id) decodeContracts with
    | .error e => (none, some e)
    | .ok contracts => (some contracts, none),
   [contractsPath id])

/-- `GetContractsHeight`: contract list at an integer height. -/
def GetContractsHeight (c : Client) (ctx : Ctx) (height : Int) :
    (Option (List Address) × Option Err) × List String :=
  GetContracts c ctx (BlockLevel height)

/-- `GetContractBalance`: decode the body as a string, then return
`strconv.ParseInt(bal, 10, 64)` directly. -/
def GetContractBalance (c : Client) (ctx : Ctx) (addr : Address) (id : BlockID) :
    (Int × Option Err) × List String :=
  (match c.get ctx (contractBalancePath id addr) decodeString with
    | .error e => (0, some e)
    | .ok bal => parseInt64 bal,
   [contractBalancePath id addr])

/-- `GetContractBalanceHeight`: balance at an integer height. -/
def GetContractBalanceHeight (c : Client) (ctx : Ctx) (addr : Address) (height : Int) :
    (Int × Option Err) × List String :=
  GetContractBalance c ctx addr (BlockLevel height)

/-- `GetContractScript`: the originated contract script, always at head. -/
def GetContractScript (c : Client) (ctx : Ctx) (addr : Address) :
    (Option Script × Option Err) × List String :=
  (match c.get ctx (contractScriptPath addr) decodeScript with
    | .error e => (none, some e)
    | .ok s => (some s, none),
   [contractScriptPath addr])

/-- `GetContractStorage`: the contract's storage tree at the given block;
the sentinel `InvalidPrim` on failure. -/
def GetContractStorage (c : Client) (ctx : Ctx) (addr : Address) (id : BlockID) :
    (Prim × Option Err) × List String :=
  (match c.get ctx (contractStoragePath id addr) decodePrim with
    | .error e => (InvalidPrim, some e)
    | .ok prim => (prim, none),
   [contractStoragePath id addr])

/-- `GetContractStorageHeight`: storage at an integer height. -/
def GetContractStorageHeight (c : Client) (ctx : Ctx) (addr : Address) (height : Int) :
    (Prim × Option Err) × List String :=
  GetContractStorage c ctx addr (BlockLevel height)

/-- `GetContractEntrypoints`: the name-to-Prim mapping under the wrapper
object's `entrypoints` field, always at head. -/
def GetContractEntrypoints (c : Client) (ctx : Ctx) (addr : Address) :
    (Option (List (String × Prim)) × Option Err) × List String :=
  (match c.get ctx (contractEntrypointsPath addr) decodeEntrypointsWrapper with
    | .error e => (none, some e)
    | .ok eps => (some eps, none),
   [contractEntrypointsPath addr])

/-- `GetBigmapKeys`: all keys ever indexed in big map `bigmap` at the
given block. -/
def GetBigmapKeys (c : Client) (ctx : Ctx) (bigmap : Int) (id : BlockID) :
    (Option (List ExprHash) × Option Err) × List String :=
  (match c.get ctx (bigmapKeysPath id bigmap) decodeExprHashes with
    | .error e => (none, some e)
    | .ok hashes => (some hashes, none),
   [bigmapKeysPath id bigmap])

/-- `GetActiveBigmapKeys`: keys of the big map at head. -/
def GetActiveBigmapKeys (c : Client) (ctx : Ctx) (bigmap : Int) :
    (Option (List ExprHash) × Option Err) × List String :=
  GetBigmapKeys c ctx bigmap Head

/-- `GetBigmapValue`: the value tree at a key hash at the given block;
the sentinel `InvalidPrim` on failure. -/
def GetBigmapValue (c : Client) (ctx : Ctx) (bigmap : Int) (hash : ExprHash) (id : BlockID) :
    (Prim × Option Err) × List String :=
  (match c.get ctx (bigmapValuePath id bigmap hash) decodePrim with
    | .error e => (InvalidPrim, some e)
    | .ok prim => (prim, none),
   [bigmapValuePath id bigmap hash])

/-- `GetActiveBigmapValue`: value at a key hash at head. -/
def GetActiveBigmapValue (c : Client) (ctx : Ctx) (bigmap : Int) (hash : ExprHash) :
    (Prim × Option Err) × List String :=
  GetBigmapValue c ctx bigmap hash Head

/-- `GetBigmapValueHeight`: value at a key hash at an integer height. -/
def GetBigmapValueHeight (c : Client) (ctx : Ctx) (bigmap : Int) (hash : ExprHash) (height : Int) :
    (Prim × Option Err) × List String :=
  GetBigmapValue c ctx bigmap hash (BlockLevel height)

/-- `GetBigmapInfo`: type descriptors and total byte size of the big map
at the given block. -/
def GetBigmapInfo (c : Client) (ctx : Ctx) (bigmap : Int) (id : BlockID) :
    (Option BigmapInfo × Option Err) × List String :=
  (match c.get ctx (bigmapInfoPath id bigmap) decodeBigmapInfo with
    | .error e => (none, some e)
    | .ok info => (some info, none),
   [bigmapInfoPath id bigmap])

/-- `GetActiveBigmapInfo`: big-map info at head. -/
def GetActiveBigmapInfo (c : Client) (ctx : Ctx) (bigmap : Int) :
    (Option BigmapInfo × Option Err) × List String :=
  GetBigmapInfo c ctx bigmap Head

/-! ## Spec-side path templates

These follow the wording of the specification's interface section (the
produced path templates, with `{block}` "either the literal `head`, an
integer height, or a hash string"), independently of the source's
`fmt.Sprintf` calls, for the refinement claims. -/

/-- From the spec's words: the `{block}` segment — the literal `head`, an
integer height, or a hash string. -/
def specBlockSegment : BlockID → String
  | .head => "head"
  | .level h => toString h
  | .hash s => s

/-- From the spec's words: `chains/main/blocks/{block}/context/contracts`. -/
def specTemplateContracts (block : String) : String :=
  "chains/main/blocks/" ++ block ++ "/context/contracts"

/-- From the spec's words:
`chains/main/blocks/{block}/context/contracts/{addr}/balance`. -/
def specTemplateBalance (block addr : String) : String :=
  "chains/main/blocks/" ++ block ++ "/context/contracts/" ++ addr ++ "/balance"

/-- From the spec's words:
`chains/main/blocks/head/context/contracts/{addr}/script`. -/
def specTemplateScript (addr : String) : String :=
  "chains/main/blocks/head/context/contracts/" ++ addr ++ "/script"

/-- From the spec's words:
`chains/main/blocks/{block}/context/contracts/{addr}/storage`. -/
def specTemplateStorage (block addr : String) : String :=
  "chains/main/blocks/" ++ block ++ "/context/contracts/" ++ addr ++ "/storage"

/-- From the spec's words:
`chains/main/blocks/head/context/contracts/{addr}/entrypoints`. -/
def specTemplateEntrypoints (addr : String) : String :=
  "chains/main/blocks/head/context/contracts/" ++ addr ++ "/entrypoints"

/-- From the spec's words:
`chains/main/blocks/{block}/context/raw/json/big_maps/index/{bigmap}/contents`. -/
def specTemplateBigmapKeys (block : String) (bigmap : Int) : String :=
  "chains/main/blocks/" ++ block ++ "/context/raw/json/big_maps/index/"
    ++ toString bigmap ++ "/contents"

/-- From the spec's words:
`chains/main/blocks/{block}/context/raw/json/big_maps/index/{bigmap}/contents/{hash}`. -/
def specTemplateBigmapValue (block : String) (bigmap : Int) (hash : String) : String :=
  "chains/main/blocks/" ++ block ++ "/context/raw/json/big_maps/index/"
    ++ toString bigmap ++ "/contents/" ++ hash

/-- From the spec's words:
`chains/main/blocks/{block}/context/raw/json/big_maps/index/{bigmap}`. -/
def specTemplateBigmapInfo (block : String) (bigmap : Int) : String :=
  "chains/main/blocks/" ++ block ++ "/context/raw/json/big_maps/index/" ++ toString bigmap

/-! ## Spec-side characterization of the balance parse -/

/-- From the spec's words: the character sequence is an optionally-signed,
non-empty, all-digit base-10 numeral. -/
def isSignedDecimalChars (cs : List Char) : Prop :=
  (stripSign cs).2 ≠ [] ∧ ∀ c ∈ (stripSign cs).2, c.isDigit

instance (cs : List Char) : Decidable (isSignedDecimalChars cs) := by
  unfold isSignedDecimalChars; infer_instance

/-- From the spec's words: the body string is an optionally-signed,
non-empty, all-digit base-10 numeral. -/
def isSignedDecimal (s : String) : Prop :=
  isSignedDecimalChars s.toList

instance (s : String) : Decidable (isSignedDecimal s) := by
  unfold isSignedDecimal; infer_instance

/-- The numeric value of a digit list, most significant digit first. -/
def digitsVal (ds : List Char) : Nat :=
  ds.foldl (fun a c => a * 10 + (c.toNat - 48)) 0

/-- The mathematical value denoted by an optionally-signed digit list. -/
def signedDecimalValChars (cs : List Char) : Int :=
  if (stripSign cs).1 then -(digitsVal (stripSign cs).2 : Int)
  else (digitsVal (stripSign cs).2 : Int)

/-- From the spec's words: the mathematical value denoted by an
optionally-signed base-10 numeral. -/
def signedDecimalVal (s : String) : Int :=
  signedDecimalValChars s.toList

/-! ## Concrete fixtures used by witnesses and counterexamples -/

/-- A concrete contract address. -/
def addr1 : Address := ⟨"KT1GyeRktoGPEKsWpchWguyy8FAf3aNHkw2T"⟩

/-- A concrete big-map key hash. -/
def hash1 : ExprHash := ⟨"expruDuAZnFKqmLoisJqUGqrNzXTvw7PJM2rYk97JErM5FHCerQqgn"⟩

/-- A live (not cancelled) context. -/
def ctx0 : Ctx := ⟨false⟩

/-- A context cancelled before response completion. -/
def ctxCancelled : Ctx := ⟨true⟩

/-- A transport answering every request with the same body. -/
def clientConst (j : Json) : Client := ⟨fun _ _ => .ok j⟩

/-- A transport failing every request. -/
def clientFail : Client := ⟨fun _ _ => .error (Err.transport "connection refused")⟩

/-- Whether the typed `Get` at `path` fails — the transport call fails
(network error, non-2xx status, malformed JSON) or the typed decode
fails. -/
def getFailed (c : Client) (ctx : Ctx) (path : String)
    (dec : Json → Except Err α) : Bool :=
  match c.get ctx path dec with
  | .error _ => true
  | .ok _ => false

/-- Whether the balance operation fails: the typed `Get` fails or the
secondary string-to-integer parse fails. -/
def balanceFailed (c : Client) (ctx : Ctx) (path : String) : Bool :=
  match c.get ctx path decodeString with
  | .error _ => true
  | .ok s => ((parseInt64 s).2).isSome

/-! ## Helper lemmas -/

theorem parseDigitsAux_eq (ds : List Char) (acc : Nat) :
    parseDigitsAux ds acc =
      if ∀ c ∈ ds, c.isDigit
      then some (ds.foldl (fun a c => a * 10 + (c.toNat - 48)) acc)
      else none := by
  induction ds generalizing acc with
  | nil => simp [parseDigitsAux]
  | cons c cs ih =>
    by_cases hc : c.isDigit
    · simp [parseDigitsAux, hc, ih]
    · simp [parseDigitsAux, hc]

theorem parseInt64Chars_eq (cs : List Char) :
    parseInt64Chars cs =
      if isSignedDecimalChars cs then
        if signedDecimalValChars cs < -(2 ^ 63) then (-(2 ^ 63), some Err.errRange)
        else if (2 ^ 63 - 1 : Int) < signedDecimalValChars cs then
          (2 ^ 63 - 1, some Err.errRange)
        else (signedDecimalValChars cs, none)
      else (0, some Err.errSyn) := by
  unfold parseInt64Chars isSignedDecimalChars signedDecimalValChars
  by_cases hne : (stripSign cs).2.isEmpty
  · simp [hne, List.isEmpty_iff.mp hne]
  · rw [if_neg hne]
    rw [parseDigitsAux_eq]
    have hne' : (stripSign cs).2 ≠ [] := by
      intro h; exact hne (by simp [h])
    by_cases hd : ∀ x ∈ (stripSign cs).2, x.isDigit
    · rw [if_pos hd]
      simp only [digitsVal]
      rw [if_pos (And.intro hne' hd)]
    · rw [if_neg hd]
      simp [hd]

/-- The complete behaviour of the balance parse, phrased against the
spec-side characterization of an optionally-signed base-10 numeral. -/
theorem parseInt64_eq (s : String) :
    parseInt64 s =
      if isSignedDecimal s then
        if signedDecimalVal s < -(2 ^ 63) then (-(2 ^ 63), some Err.errRange)
        else if (2 ^ 63 - 1 : Int) < signedDecimalVal s then
          (2 ^ 63 - 1, some Err.errRange)
        else (signedDecimalVal s, none)
      else (0, some Err.errSyn) :=
  parseInt64Chars_eq s.toList

theorem except_bind_ok {α β : Type} (a : α) (f : α → Except Err β) :
    (Except.ok a : Except Err α) >>= f = f a := rfl

theorem except_bind_error {α β : Type} (e : Err) (f : α → Except Err β) :
    (Except.error e : Except Err α) >>= f = Except.error e := rfl

/-- A non-null JSON body decodes to exactly the (valid) tree it holds. -/
theorem decodePrim_of_ne_null (j : Json) (h : j ≠ Json.null) :
    decodePrim j = .ok (Prim.valid j) := by
  cases j with
  | null => exact absurd rfl h
  | bool b => rfl
  | num n => rfl
  | str s => rfl
  | arr es => rfl
  | obj fs => rfl

/-- The Prim decoder never produces the invalid sentinel. -/
theorem decodePrim_ok_ne_invalid (j : Json) (p : Prim) (h : decodePrim j = .ok p) :
    p ≠ Prim.invalid := by
  cases j with
  | null => exact absurd h (by simp [decodePrim])
  | bool b => intro hc; rw [hc] at h; exact Prim.noConfusion (Except.ok.inj h)
  | num n => intro hc; rw [hc] at h; exact Prim.noConfusion (Except.ok.inj h)
  | str s => intro hc; rw [hc] at h; exact Prim.noConfusion (Except.ok.inj h)
  | arr es => intro hc; rw [hc] at h; exact Prim.noConfusion (Except.ok.inj h)
  | obj fs => intro hc; rw [hc] at h; exact Prim.noConfusion (Except.ok.inj h)

/-- The spec's `{block}` rendering and the source's `BlockID` rendering
agree on every block reference. -/
theorem specBlockSegment_eq_render (id : BlockID) :
    specBlockSegment id = BlockID.render id := by
  cases id <;> rfl

/-- Decoding a list of non-null JSON values as Prims succeeds with the
valid trees, element for element. -/
theorem decodeListWith_decodePrim (eps : List (String × Json))
    (h : ∀ kv ∈ eps, kv.2 ≠ Json.null) :
    decodeListWith decodePrim (eps.map Prod.snd) =
      .ok (eps.map fun kv => Prim.valid kv.2) := by
  induction eps with
  | nil => rfl
  | cons kv rest ih =>
    have h1 : kv.2 ≠ Json.null := h kv (List.mem_cons_self kv rest)
    have h2 : ∀ x ∈ rest, x.2 ≠ Json.null := fun x hx => h x (List.mem_cons_of_mem kv hx)
    simp only [List.map, decodeListWith, decodePrim_of_ne_null kv.2 h1, ih h2]
    rfl

theorem zip_fst_valid_snd (eps : List (String × Json)) :
    (eps.map Prod.fst).zip (eps.map fun kv => Prim.valid kv.2) =
      eps.map fun kv => (kv.1, Prim.valid kv.2) := by
  induction eps with
  | nil => rfl
  | cons kv rest ih => simp [ih]

/-- The entrypoints-map decoder on an object of non-null values yields the
names paired with exactly the trees they map to. -/
theorem decodeEpMap_obj (eps : List (String × Json))
    (h : ∀ kv ∈ eps, kv.2 ≠ Json.null) :
    decodeEpMap (Json.obj eps) = .ok (eps.map fun kv => (kv.1, Prim.valid kv.2)) := by
  simp [decodeEpMap, decodeListWith_decodePrim eps h, Except.map, zip_fst_valid_snd]

/-! ## The claims -/

/-- C1 counterexample: the claim says every parse failure returns a zero
balance, but on the out-of-range numeric body `"9223372036854775808"` the
code returns `strconv.ParseInt`'s clamped boundary value `2^63 - 1`
together with the range error — an error case with a non-zero balance. -/
theorem contractBalance_range_error_nonzero :
    (GetContractBalance (clientConst (Json.str "9223372036854775808")) ctx0 addr1 Head).1.2
        = some Err.errRange ∧
    (GetContractBalance (clientConst (Json.str "9223372036854775808")) ctx0 addr1 Head).1.1
        = 2 ^ 63 - 1 ∧
    ((2 : Int) ^ 63 - 1 ≠ 0) :=
  ⟨rfl, rfl, by decide⟩

/-- C1 (amended): `GetContractBalance` returns exactly the base-10
signed-integer parse of the string decoded from the response body; a parse
failure yields a non-nil error, with a zero balance for syntactically
invalid bodies, while numerically out-of-range bodies yield the clamped
64-bit boundary value together with the range error. -/
theorem contractBalance_is_parse (c : Client) (ctx : Ctx) (addr : Address)
    (id : BlockID) (s : String)
    (h : c.fetch ctx (contractBalancePath id addr) = .ok (Json.str s)) :
    (GetContractBalance c ctx addr id).1 = parseInt64 s ∧
    ((parseInt64 s).2 = some Err.errSyn → (parseInt64 s).1 = 0) ∧
    ((parseInt64 s).2 = some Err.errRange →
        (parseInt64 s).1 = 2 ^ 63 - 1 ∨ (parseInt64 s).1 = -(2 ^ 63)) := by
  refine ⟨?_, ?_, ?_⟩
  · simp [GetContractBalance, Client.get, h, decodeString]
  · rw [parseInt64_eq]; split_ifs <;> simp
  · rw [parseInt64_eq]; split_ifs <;> simp

/-- C1 witness: on a transport answering `"123"`, the returned balance is
the parse of `"123"`. -/
theorem contractBalance_is_parse_witness :
    (GetContractBalance (clientConst (Json.str "123")) ctx0 addr1 Head).1 = parseInt64 "123" :=
  (contractBalance_is_parse (clientConst (Json.str "123")) ctx0 addr1 Head "123" rfl).1

/-- C2: `GetContractStorage` and `GetBigmapValue` return the sentinel
invalid Prim exactly when the transport call or its decode fails, and on
success return the decoded tree unmodified, exactly as the transport
produced it. -/
theorem storage_bigmap_sentinel_iff (c : Client) (ctx : Ctx) (addr : Address)
    (id : BlockID) (bigmap : Int) (hash : ExprHash) :
    ((GetContractStorage c ctx addr id).1.1 = InvalidPrim ↔
        ((GetContractStorage c ctx addr id).1.2).isSome) ∧
    ((GetContractStorage c ctx addr id).1 =
      match c.fetch ctx (contractStoragePath id addr) with
      | .error e => (InvalidPrim, some e)
      | .ok j =>
        match decodePrim j with
        | .error e => (InvalidPrim, some e)
        | .ok p => (p, none)) ∧
    ((GetBigmapValue c ctx bigmap hash id).1.1 = InvalidPrim ↔
        ((GetBigmapValue c ctx bigmap hash id).1.2).isSome) ∧
    ((GetBigmapValue c ctx bigmap hash id).1 =
      match c.fetch ctx (bigmapValuePath id bigmap hash) with
      | .error e => (InvalidPrim, some e)
      | .ok j =>
        match decodePrim j with
        | .error e => (InvalidPrim, some e)
        | .ok p => (p, none)) := by
  have key : ∀ path : String,
      ((match c.get ctx path decodePrim with
          | .error e => (InvalidPrim, some e)
          | .ok prim => (prim, none) : Prim × Option Err).1 = InvalidPrim ↔
        ((match c.get ctx path decodePrim with
          | .error e => (InvalidPrim, some e)
          | .ok prim => (prim, none) : Prim × Option Err).2).isSome) ∧
      ((match c.get ctx path decodePrim with
          | .error e => (InvalidPrim, some e)
          | .ok prim => (prim, none) : Prim × Option Err) =
        match c.fetch ctx path with
        | .error e => (InvalidPrim, some e)
        | .ok j =>
          match decodePrim j with
          | .error e => (InvalidPrim, some e)
          | .ok p => (p, none)) := by
    intro path
    cases hf : c.fetch ctx path with
    | error e => simp [Client.get, hf]
    | ok j =>
      cases hd : decodePrim j with
      | error e => simp [Client.get, hf, hd]
      | ok p =>
        have hne := decodePrim_ok_ne_invalid j p hd
        simp [Client.get, hf, hd, InvalidPrim, hne]
  exact ⟨(key (contractStoragePath id addr)).1, (key (contractStoragePath id addr)).2,
    (key (bigmapValuePath id bigmap hash)).1, (key (bigmapValuePath id bigmap hash)).2⟩

/-- C3: every height-relative convenience method is extensionally the
block-reference method with the height wrapped into a block reference —
identical request log and identical result, with no independent logic. -/
theorem height_wrappers_delegate (c : Client) (ctx : Ctx) (addr : Address)
    (height bigmap : Int) (hash : ExprHash) :
    GetContractsHeight c ctx height = GetContracts c ctx (BlockLevel height) ∧
    GetContractBalanceHeight c ctx addr height
      = GetContractBalance c ctx addr (BlockLevel height) ∧
    GetContractStorageHeight c ctx addr height
      = GetContractStorage c ctx addr (BlockLevel height) ∧
    GetBigmapValueHeight c ctx bigmap hash height
      = GetBigmapValue c ctx bigmap hash (BlockLevel height) :=
  ⟨rfl, rfl, rfl, rfl⟩

/-- C4: every operation issues exactly one GET whose relative path equals
the specification's template for that operation, with the block segment
rendered from the block reference and then the address or big-map id; the
script, entrypoints and Active* convenience methods always use the literal
`head` block segment regardless of any other parameter. -/
theorem request_paths_match_spec (c : Client) (ctx : Ctx) (id : BlockID)
    (addr : Address) (bigmap : Int) (hash : ExprHash) :
    (GetContracts c ctx id).2 = [specTemplateContracts (specBlockSegment id)] ∧
    (GetContractBalance c ctx addr id).2
      = [specTemplateBalance (specBlockSegment id) addr.render] ∧
    (GetContractScript c ctx addr).2 = [specTemplateScript addr.render] ∧
    (GetContractStorage c ctx addr id).2
      = [specTemplateStorage (specBlockSegment id) addr.render] ∧
    (GetContractEntrypoints c ctx addr).2 = [specTemplateEntrypoints addr.render] ∧
    (GetBigmapKeys c ctx bigmap id).2
      = [specTemplateBigmapKeys (specBlockSegment id) bigmap] ∧
    (GetBigmapValue c ctx bigmap hash id).2
      = [specTemplateBigmapValue (specBlockSegment id) bigmap hash.render] ∧
    (GetBigmapInfo c ctx bigmap id).2
      = [specTemplateBigmapInfo (specBlockSegment id) bigmap] ∧
    (GetActiveBigmapKeys c ctx bigmap).2 = [specTemplateBigmapKeys "head" bigmap] ∧
    (GetActiveBigmapValue c ctx bigmap hash).2
      = [specTemplateBigmapValue "head" bigmap hash.render] ∧
    (GetActiveBigmapInfo c ctx bigmap).2 = [specTemplateBigmapInfo "head" bigmap] := by
  cases id <;>
    exact ⟨rfl, rfl, rfl, rfl, rfl, rfl, rfl, rfl, rfl, rfl, rfl⟩

/-- C5: `GetContractEntrypoints` returns exactly the name-to-Prim mapping
nested under the response object's wrapper field, with no entries added,
removed, or altered. -/
theorem entrypoints_exact_mapping (c : Client) (ctx : Ctx) (addr : Address)
    (fields eps : List (String × Json))
    (hf : c.fetch ctx (contractEntrypointsPath addr) = .ok (Json.obj fields))
    (hl : lookupField fields "entrypoints" = some (Json.obj eps))
    (hnn : ∀ kv ∈ eps, kv.2 ≠ Json.null) :
    (GetContractEntrypoints c ctx addr).1 =
      (some (eps.map fun kv => (kv.1, Prim.valid kv.2)), none) := by
  simp [GetContractEntrypoints, Client.get, hf, decodeEntrypointsWrapper, hl,
    decodeEpMap_obj eps hnn]

/-- C5 witness: a wrapper body with a single `default` entrypoint is
unwrapped to exactly that one-entry mapping. -/
theorem entrypoints_exact_mapping_witness :
    (GetContractEntrypoints
        (clientConst (Json.obj [("entrypoints", Json.obj [("default", Json.num 1)])]))
        ctx0 addr1).1 =
      (some [("default", Prim.valid (Json.num 1))], none) :=
  entrypoints_exact_mapping
    (clientConst (Json.obj [("entrypoints", Json.obj [("default", Json.num 1)])]))
    ctx0 addr1 [("entrypoints", Json.obj [("default", Json.num 1)])]
    [("default", Json.num 1)] rfl rfl (by simp)

/-- C6 counterexample: the claim says every failing operation returns the
zero value of its result type, but `GetContractBalance` on the
out-of-range body `"-9223372036854775809"` fails with the range error
while returning the clamped boundary value `-2^63`, not zero. -/
theorem balance_failure_value_nonzero :
    (GetContractBalance (clientConst (Json.str "-9223372036854775809")) ctx0 addr1 Head).1.2
        = some Err.errRange ∧
    (GetContractBalance (clientConst (Json.str "-9223372036854775809")) ctx0 addr1 Head).1.1
        = -(2 ^ 63) ∧
    ((-(2 ^ 63) : Int) ≠ 0) :=
  ⟨rfl, rfl, by decide⟩

/-- C6 (amended): every operation fails exactly when its single typed
`Get` (transport call plus decode) fails or — for the balance — the
secondary string-to-integer parse fails; on failure it returns the zero
value of its result type (nil list, nil pointer, nil map, zero integer,
sentinel Prim) together with a non-nil error, except that
`GetContractBalance` returns the clamped 64-bit boundary value when the
parse fails with a range error; each operation issues exactly one request
(no retries, no partial results), and every convenience wrapper is pure
delegation. -/
theorem failure_semantics (c : Client) (ctx : Ctx) (id : BlockID) (addr : Address)
    (bigmap height : Int) (hash : ExprHash) :
    ((((GetContracts c ctx id).1.2).isSome
        = getFailed c ctx (contractsPath id) decodeContracts) ∧
      (((GetContracts c ctx id).1.2).isSome → (GetContracts c ctx id).1.1 = none) ∧
      (GetContracts c ctx id).2.length = 1) ∧
    ((((GetContractBalance c ctx addr id).1.2).isSome
        = balanceFailed c ctx (contractBalancePath id addr)) ∧
      (((GetContractBalance c ctx addr id).1.2).isSome →
        (GetContractBalance c ctx addr id).1.1 = 0 ∨
        ((GetContractBalance c ctx addr id).1.2 = some Err.errRange ∧
         ((GetContractBalance c ctx addr id).1.1 = 2 ^ 63 - 1 ∨
          (GetContractBalance c ctx addr id).1.1 = -(2 ^ 63)))) ∧
      (GetContractBalance c ctx addr id).2.length = 1) ∧
    ((((GetContractScript c ctx addr).1.2).isSome
        = getFailed c ctx (contractScriptPath addr) decodeScript) ∧
      (((GetContractScript c ctx addr).1.2).isSome →
        (GetContractScript c ctx addr).1.1 = none) ∧
      (GetContractScript c ctx addr).2.length = 1) ∧
    ((((GetContractStorage c ctx addr id).1.2).isSome
        = getFailed c ctx (contractStoragePath id addr) decodePrim) ∧
      (((GetContractStorage c ctx addr id).1.2).isSome →
        (GetContractStorage c ctx addr id).1.1 = InvalidPrim) ∧
      (GetContractStorage c ctx addr id).2.length = 1) ∧
    ((((GetContractEntrypoints c ctx addr).1.2).isSome
        = getFailed c ctx (contractEntrypointsPath addr) decodeEntrypointsWrapper) ∧
      (((GetContractEntrypoints c ctx addr).1.2).isSome →
        (GetContractEntrypoints c ctx addr).1.1 = none) ∧
      (GetContractEntrypoints c ctx addr).2.length = 1) ∧
    ((((GetBigmapKeys c ctx bigmap id).1.2).isSome
        = getFailed c ctx (bigmapKeysPath id bigmap) decodeExprHashes) ∧
      (((GetBigmapKeys c ctx bigmap id).1.2).isSome →
        (GetBigmapKeys c ctx bigmap id).1.1 = none) ∧
      (GetBigmapKeys c ctx bigmap id).2.length = 1) ∧
    ((((GetBigmapValue c ctx bigmap hash id).1.2).isSome
        = getFailed c ctx (bigmapValuePath id bigmap hash) decodePrim) ∧
      (((GetBigmapValue c ctx bigmap hash id).1.2).isSome →
        (GetBigmapValue c ctx bigmap hash id).1.1 = InvalidPrim) ∧
      (GetBigmapValue c ctx bigmap hash id).2.length = 1) ∧
    ((((GetBigmapInfo c ctx bigmap id).1.2).isSome
        = getFailed c ctx (bigmapInfoPath id bigmap) decodeBigmapInfo) ∧
      (((GetBigmapInfo c ctx bigmap id).1.2).isSome →
        (GetBigmapInfo c ctx bigmap id).1.1 = none) ∧
      (GetBigmapInfo c ctx bigmap id).2.length = 1) ∧
    (GetContractsHeight c ctx height = GetContracts c ctx (BlockLevel height) ∧
      GetContractBalanceHeight c ctx addr height
        = GetContractBalance c ctx addr (BlockLevel height) ∧
      GetContractStorageHeight c ctx addr height
        = GetContractStorage c ctx addr (BlockLevel height) ∧
      GetBigmapValueHeight c ctx bigmap hash height
        = GetBigmapValue c ctx bigmap hash (BlockLevel height) ∧
      GetActiveBigmapKeys c ctx bigmap = GetBigmapKeys c ctx bigmap Head ∧
      GetActiveBigmapValue c ctx bigmap hash = GetBigmapValue c ctx bigmap hash Head ∧
      GetActiveBigmapInfo c ctx bigmap = GetBigmapInfo c ctx bigmap Head) := by
  refine ⟨⟨?_, ?_, rfl⟩, ⟨?_, ?_, rfl⟩, ⟨?_, ?_, rfl⟩, ⟨?_, ?_, rfl⟩, ⟨?_, ?_, rfl⟩,
    ⟨?_, ?_, rfl⟩, ⟨?_, ?_, rfl⟩, ⟨?_, ?_, rfl⟩, rfl, rfl, rfl, rfl, rfl, rfl, rfl⟩
  · cases hg : c.get ctx (contractsPath id) decodeContracts <;>
      simp [GetContracts, getFailed, hg]
  · cases hg : c.get ctx (contractsPath id) decodeContracts <;>
      simp [GetContracts, hg]
  · cases hg : c.get ctx (contractBalancePath id addr) decodeString <;>
      simp [GetContractBalance, balanceFailed, hg]
  · cases hg : c.get ctx (contractBalancePath id addr) decodeString with
    | error e => simp [GetContractBalance, hg]
    | ok s =>
      simp only [GetContractBalance, hg]
      rw [parseInt64_eq]
      split_ifs <;> simp
  · cases hg : c.get ctx (contractScriptPath addr) decodeScript <;>
      simp [GetContractScript, getFailed, hg]
  · cases hg : c.get ctx (contractScriptPath addr) decodeScript <;>
      simp [GetContractScript, hg]
  · cases hg : c.get ctx (contractStoragePath id addr) decodePrim <;>
      simp [GetContractStorage, getFailed, hg]
  · cases hg : c.get ctx (contractStoragePath id addr) decodePrim <;>
      simp [GetContractStorage, hg]
  · cases hg : c.get ctx (contractEntrypointsPath addr) decodeEntrypointsWrapper <;>
      simp [GetContractEntrypoints, getFailed, hg]
  · cases hg : c.get ctx (contractEntrypointsPath addr) decodeEntrypointsWrapper <;>
      simp [GetContractEntrypoints, hg]
  · cases hg : c.get ctx (bigmapKeysPath id bigmap) decodeExprHashes <;>
      simp [GetBigmapKeys, getFailed, hg]
  · cases hg : c.get ctx (bigmapKeysPath id bigmap) decodeExprHashes <;>
      simp [GetBigmapKeys, hg]
  · cases hg : c.get ctx (bigmapValuePath id bigmap hash) decodePrim <;>
      simp [GetBigmapValue, getFailed, hg]
  · cases hg : c.get ctx (bigmapValuePath id bigmap hash) decodePrim <;>
      simp [GetBigmapValue, hg]
  · cases hg : c.get ctx (bigmapInfoPath id bigmap) decodeBigmapInfo <;>
      simp [GetBigmapInfo, getFailed, hg]
  · cases hg : c.get ctx (bigmapInfoPath id bigmap) decodeBigmapInfo <;>
      simp [GetBigmapInfo, hg]

/-- C6 witness: against a transport that fails every request, the listing
operation indeed reports an error and yields the nil list. -/
theorem failure_semantics_witness :
    (GetContracts clientFail ctx0 BlockID.head).1.1 = none :=
  (failure_semantics clientFail ctx0 BlockID.head addr1 7 100 hash1).1.2.1 rfl

/-- The big-map info decoder on the canonical three-field body: the
quoted-string byte count is parsed base-10 and the two type trees are
decoded in place. -/
theorem decodeBigmapInfo_obj (kt vt : Json) (s : String) (n : Int)
    (hkt : kt ≠ Json.null) (hvt : vt ≠ Json.null) (hp : parseInt64 s = (n, none)) :
    decodeBigmapInfo
        (Json.obj [("key_type", kt), ("value_type", vt), ("total_bytes", Json.str s)])
      = .ok ⟨Prim.valid kt, Prim.valid vt, n⟩ := by
  have h1 : lookupField
      [("key_type", kt), ("value_type", vt), ("total_bytes", Json.str s)] "key_type"
      = some kt := rfl
  have h2 : lookupField
      [("key_type", kt), ("value_type", vt), ("total_bytes", Json.str s)] "value_type"
      = some vt := rfl
  have h3 : lookupField
      [("key_type", kt), ("value_type", vt), ("total_bytes", Json.str s)] "total_bytes"
      = some (Json.str s) := rfl
  simp only [decodeBigmapInfo, h1, h2, h3, decodePrim_of_ne_null kt hkt,
    decodePrim_of_ne_null vt hvt, hp, except_bind_ok, except_bind_error]

/-- C7: `GetBigmapInfo` decodes `TotalBytes` from a quoted-string base-10
numeric field — a body carrying `"total_bytes":"…digits…"` yields exactly
that integer together with the decoded `key_type` and `value_type` trees,
while a native JSON number in that field is rejected with an error. -/
theorem bigmap_info_decode :
    (∀ (c : Client) (ctx : Ctx) (bigmap : Int) (id : BlockID) (kt vt : Json)
        (s : String) (n : Int),
      kt ≠ Json.null → vt ≠ Json.null →
      c.fetch ctx (bigmapInfoPath id bigmap)
        = .ok (Json.obj [("key_type", kt), ("value_type", vt), ("total_bytes", Json.str s)]) →
      parseInt64 s = (n, none) →
      (GetBigmapInfo c ctx bigmap id).1
        = (some ⟨Prim.valid kt, Prim.valid vt, n⟩, none)) ∧
    (∀ (c : Client) (ctx : Ctx) (bigmap : Int) (id : BlockID) (kt vt : Json) (m : Int),
      c.fetch ctx (bigmapInfoPath id bigmap)
        = .ok (Json.obj [("key_type", kt), ("value_type", vt), ("total_bytes", Json.num m)]) →
      ((GetBigmapInfo c ctx bigmap id).1.2).isSome) := by
  constructor
  · intro c ctx bigmap id kt vt s n hkt hvt hf hp
    simp [GetBigmapInfo, Client.get, hf, decodeBigmapInfo_obj kt vt s n hkt hvt hp]
  · intro c ctx bigmap id kt vt m hf
    have h1 : lookupField
        [("key_type", kt), ("value_type", vt), ("total_bytes", Json.num m)] "key_type"
        = some kt := rfl
    have h2 : lookupField
        [("key_type", kt), ("value_type", vt), ("total_bytes", Json.num m)] "value_type"
        = some vt := rfl
    have h3 : lookupField
        [("key_type", kt), ("value_type", vt), ("total_bytes", Json.num m)] "total_bytes"
        = some (Json.num m) := rfl
    cases hkt : decodePrim kt with
    | error e =>
      simp [GetBigmapInfo, Client.get, hf, decodeBigmapInfo, h1, hkt,
        except_bind_ok, except_bind_error]
    | ok pk =>
      cases hvt : decodePrim vt with
      | error e =>
        simp [GetBigmapInfo, Client.get, hf, decodeBigmapInfo, h1, h2, hkt, hvt,
          except_bind_ok, except_bind_error]
      | ok pv =>
        simp [GetBigmapInfo, Client.get, hf, decodeBigmapInfo, h1, h2, h3, hkt, hvt,
          except_bind_ok, except_bind_error]

/-- C7 witness: the specification's example — big map 42 at head, body
`{"key_type":{…},"value_type":{…},"total_bytes":"12345"}` — yields
`TotalBytes = 12345`, and the same body with a native number `12345` is
rejected. -/
theorem bigmap_info_decode_witness :
    (GetBigmapInfo
        (clientConst (Json.obj [("key_type", Json.obj []), ("value_type", Json.obj []),
          ("total_bytes", Json.str "12345")])) ctx0 42 Head).1
      = (some ⟨Prim.valid (Json.obj []), Prim.valid (Json.obj []), 12345⟩, none) ∧
    ((GetBigmapInfo
        (clientConst (Json.obj [("key_type", Json.obj []), ("value_type", Json.obj []),
          ("total_bytes", Json.num 12345)])) ctx0 42 Head).1.2).isSome :=
  ⟨bigmap_info_decode.1 _ ctx0 42 Head (Json.obj []) (Json.obj []) "12345" 12345
      (by simp) (by simp) rfl rfl,
   bigmap_info_decode.2 _ ctx0 42 Head (Json.obj []) (Json.obj []) 12345 rfl⟩

/-- C8: every operation forwards the caller-supplied context unchanged to
its single transport call and holds no cache: the result is determined by
the transport's response for that context at that one path, and when the
transport rejects a cancelled context the operation returns an error with
the zero-value result rather than any previous data. -/
theorem context_forwarding (c c' : Client) (ctx : Ctx) (id : BlockID) (addr : Address)
    (bigmap : Int) (hash : ExprHash) :
    ((c.fetch ctx (contractsPath id) = c'.fetch ctx (contractsPath id) →
        GetContracts c ctx id = GetContracts c' ctx id) ∧
      (c.fetch ctx (contractBalancePath id addr)
          = c'.fetch ctx (contractBalancePath id addr) →
        GetContractBalance c ctx addr id = GetContractBalance c' ctx addr id) ∧
      (c.fetch ctx (contractScriptPath addr) = c'.fetch ctx (contractScriptPath addr) →
        GetContractScript c ctx addr = GetContractScript c' ctx addr) ∧
      (c.fetch ctx (contractStoragePath id addr)
          = c'.fetch ctx (contractStoragePath id addr) →
        GetContractStorage c ctx addr id = GetContractStorage c' ctx addr id) ∧
      (c.fetch ctx (contractEntrypointsPath addr)
          = c'.fetch ctx (contractEntrypointsPath addr) →
        GetContractEntrypoints c ctx addr = GetContractEntrypoints c' ctx addr) ∧
      (c.fetch ctx (bigmapKeysPath id bigmap) = c'.fetch ctx (bigmapKeysPath id bigmap) →
        GetBigmapKeys c ctx bigmap id = GetBigmapKeys c' ctx bigmap id) ∧
      (c.fetch ctx (bigmapValuePath id bigmap hash)
          = c'.fetch ctx (bigmapValuePath id bigmap hash) →
        GetBigmapValue c ctx bigmap hash id = GetBigmapValue c' ctx bigmap hash id) ∧
      (c.fetch ctx (bigmapInfoPath id bigmap) = c'.fetch ctx (bigmapInfoPath id bigmap) →
        GetBigmapInfo c ctx bigmap id = GetBigmapInfo c' ctx bigmap id)) ∧
    (ctx.cancelled = true →
      (∀ path, ∃ e, c.fetch ctx path = .error e) →
      ((GetContracts c ctx id).1.1 = none ∧ ((GetContracts c ctx id).1.2).isSome) ∧
      ((GetContractBalance c ctx addr id).1.1 = 0 ∧
        ((GetContractBalance c ctx addr id).1.2).isSome) ∧
      ((GetContractScript c ctx addr).1.1 = none ∧
        ((GetContractScript c ctx addr).1.2).isSome) ∧
      ((GetContractStorage c ctx addr id).1.1 = InvalidPrim ∧
        ((GetContractStorage c ctx addr id).1.2).isSome) ∧
      ((GetContractEntrypoints c ctx addr).1.1 = none ∧
        ((GetContractEntrypoints c ctx addr).1.2).isSome) ∧
      ((GetBigmapKeys c ctx bigmap id).1.1 = none ∧
        ((GetBigmapKeys c ctx bigmap id).1.2).isSome) ∧
      ((GetBigmapValue c ctx bigmap hash id).1.1 = InvalidPrim ∧
        ((GetBigmapValue c ctx bigmap hash id).1.2).isSome) ∧
      ((GetBigmapInfo c ctx bigmap id).1.1 = none ∧
        ((GetBigmapInfo c ctx bigmap id).1.2).isSome)) := by
  constructor
  · refine ⟨?_, ?_, ?_, ?_, ?_, ?_, ?_, ?_⟩ <;>
      · intro h
        simp [GetContracts, GetContractBalance, GetContractScript, GetContractStorage,
          GetContractEntrypoints, GetBigmapKeys, GetBigmapValue, GetBigmapInfo,
          Client.get, h]
  · intro hcancel herr
    obtain ⟨e1, he1⟩ := herr (contractsPath id)
    obtain ⟨e2, he2⟩ := herr (contractBalancePath id addr)
    obtain ⟨e3, he3⟩ := herr (contractScriptPath addr)
    obtain ⟨e4, he4⟩ := herr (contractStoragePath id addr)
    obtain ⟨e5, he5⟩ := herr (contractEntrypointsPath addr)
    obtain ⟨e6, he6⟩ := herr (bigmapKeysPath id bigmap)
    obtain ⟨e7, he7⟩ := herr (bigmapValuePath id bigmap hash)
    obtain ⟨e8, he8⟩ := herr (bigmapInfoPath id bigmap)
    exact ⟨by simp [GetContracts, Client.get, he1],
      by simp [GetContractBalance, Client.get, he2],
      by simp [GetContractScript, Client.get, he3],
      by simp [GetContractStorage, Client.get, he4],
      by simp [GetContractEntrypoints, Client.get, he5],
      by simp [GetBigmapKeys, Client.get, he6],
      by simp [GetBigmapValue, Client.get, he7],
      by simp [GetBigmapInfo, Client.get, he8]⟩

/-- C8 witness: with a context cancelled before response completion and a
transport that therefore rejects every request, the listing operation
returns the nil result and a non-nil error. -/
theorem context_forwarding_witness :
    (GetContracts clientFail ctxCancelled BlockID.head).1.1 = none ∧
    ((GetContracts clientFail ctxCancelled BlockID.head).1.2).isSome :=
  ((context_forwarding clientFail clientFail ctxCancelled BlockID.head addr1 7 hash1).2
    rfl (fun _ => ⟨Err.transport "connection refused", rfl⟩)).1

/-- C9: on success `GetContracts` and `GetBigmapKeys` return a non-nil
sequence — the target is preallocated empty before decoding, so a
successful empty-JSON-array body yields the empty non-nil list,
distinguishable from the nil returned in every error case. -/
theorem lists_nonnil_on_success (c : Client) (ctx : Ctx) (id : BlockID) (bigmap : Int) :
    ((GetContracts c ctx id).1.2 = none →
        ∃ l, (GetContracts c ctx id).1.1 = some l) ∧
    (c.fetch ctx (contractsPath id) = .ok (Json.arr []) →
        (GetContracts c ctx id).1 = (some [], none)) ∧
    (((GetContracts c ctx id).1.2).isSome → (GetContracts c ctx id).1.1 = none) ∧
    ((GetBigmapKeys c ctx bigmap id).1.2 = none →
        ∃ l, (GetBigmapKeys c ctx bigmap id).1.1 = some l) ∧
    (c.fetch ctx (bigmapKeysPath id bigmap) = .ok (Json.arr []) →
        (GetBigmapKeys c ctx bigmap id).1 = (some [], none)) ∧
    (((GetBigmapKeys c ctx bigmap id).1.2).isSome →
        (GetBigmapKeys c ctx bigmap id).1.1 = none) := by
  refine ⟨?_, ?_, ?_, ?_, ?_, ?_⟩
  · cases hg : c.get ctx (contractsPath id) decodeContracts <;>
      simp [GetContracts, hg]
  · intro hf
    simp [GetContracts, Client.get, hf, decodeContracts, decodeListWith]
  · cases hg : c.get ctx (contractsPath id) decodeContracts <;>
      simp [GetContracts, hg]
  · cases hg : c.get ctx (bigmapKeysPath id bigmap) decodeExprHashes <;>
      simp [GetBigmapKeys, hg]
  · intro hf
    simp [GetBigmapKeys, Client.get, hf, decodeExprHashes, decodeListWith]
  · cases hg : c.get ctx (bigmapKeysPath id bigmap) decodeExprHashes <;>
      simp [GetBigmapKeys, hg]

/-- C9 witness: an empty JSON array body yields the empty non-nil list. -/
theorem lists_nonnil_on_success_witness :
    (GetContracts (clientConst (Json.arr [])) ctx0 BlockID.head).1 = (some [], none) :=
  (lists_nonnil_on_success (clientConst (Json.arr [])) ctx0 BlockID.head 7).2.1 rfl

/-- C10: the secondary balance parse succeeds exactly on optionally-signed
base-10 numerals whose value fits the signed 64-bit range, returning that
value; a negative body such as `"-5"` is accepted as a negative balance,
and an in-syntax numeral outside the range fails with the range error. -/
theorem balance_parse_characterization :
    (∀ (c : Client) (ctx : Ctx) (addr : Address) (id : BlockID) (s : String),
      c.fetch ctx (contractBalancePath id addr) = .ok (Json.str s) →
      (GetContractBalance c ctx addr id).1 = parseInt64 s) ∧
    (∀ s : String, (parseInt64 s).2 = none ↔
      isSignedDecimal s ∧ -(2 ^ 63) ≤ signedDecimalVal s ∧
        signedDecimalVal s ≤ 2 ^ 63 - 1) ∧
    (∀ s : String, (parseInt64 s).2 = none → (parseInt64 s).1 = signedDecimalVal s) ∧
    parseInt64 "-5" = (-5, none) ∧
    (∀ s : String, isSignedDecimal s →
      (signedDecimalVal s < -(2 ^ 63) ∨ (2 ^ 63 - 1 : Int) < signedDecimalVal s) →
      (parseInt64 s).2 = some Err.errRange) := by
  refine ⟨?_, ?_, ?_, rfl, ?_⟩
  · intro c ctx addr id s h
    simp [GetContractBalance, Client.get, h, decodeString]
  · intro s
    rw [parseInt64_eq]
    split_ifs with h1 h2 h3 <;> simp [h1] <;> omega
  · intro s
    rw [parseInt64_eq]
    split_ifs <;> simp
  · intro s h1 hout
    rw [parseInt64_eq, if_pos h1]
    rcases hout with hlt | hgt
    · rw [if_pos hlt]
    · rw [if_neg (by omega), if_pos hgt]

/-- C10 witness: `"-5"` is returned as the negative balance `-5`; a
21-digit numeral is range-rejected. -/
theorem balance_parse_characterization_witness :
    (GetContractBalance (clientConst (Json.str "-5")) ctx0 addr1 Head).1 = parseInt64 "-5" ∧
    (parseInt64 "999999999999999999999").2 = some Err.errRange :=
  ⟨balance_parse_characterization.1 (clientConst (Json.str "-5")) ctx0 addr1 Head "-5" rfl,
   balance_parse_characterization.2.2.2.2 "999999999999999999999" (by decide)
     (by right; decide)⟩

end TzgoContracts
